import Mathlib

/-!
Shallow embedding of the SpaceX launch-records dashboard
(`spacex-dash-app.py`) and proofs about its data transformations.

The program loads a CSV into an in-memory table (`spacex_df`), resolves
column-name aliases for the site, payload and booster columns, computes
payload bounds for a range slider, and serves two reactive callbacks:
`get_pie_chart` (outcome counts, by site or for one site) and
`update_scatter` (payload-range and site filtering).

The table is embedded as a `List Row`; a missing (NaN) payload cell is
`Option.none`, matching the pandas behaviour that every comparison with
NaN is false and that `min`/`max` skip NaN.  Column-name resolution is
embedded separately as functions over the list of column names of the
CSV header.  Figures are embedded by the data that the plotly calls
receive: a title plus slice labels and sizes for a pie figure, a title
plus the filtered row set for a scatter figure.
-/

/-- One row of `spacex_df`.  The CSV column `class` (the binary launch
outcome flag) is embedded as the field `cls` because `class` is a Lean
keyword; `payload` is `none` when the payload cell is missing (NaN). -/
structure Row where
  site : String
  payload : Option ℚ
  cls : ℤ
  booster : String
  deriving DecidableEq

/-- Slice data of a pie figure: label (a pandas `map` over a dict can
produce a missing label, hence `Option`) and slice size. -/
structure PieFig where
  title : String
  slices : List (Option String × ℕ)
  deriving DecidableEq

/-- Row set handed to `px.scatter`, plus the figure title. -/
structure ScatterFig where
  title : String
  rows : List Row
  deriving DecidableEq

/-- Counting of occurrences of each distinct value of a list, as done by
`px.pie(names=...)` (one slice per distinct name, sized by multiplicity)
and as the unsorted core of `pandas.Series.value_counts`. -/
def dedup_counts {α : Type} [DecidableEq α] (l : List α) : List (α × ℕ) :=
  l.dedup.map fun v => (v, l.count v)

/-- Ordered insertion used to model the descending-count sort of
`value_counts`. -/
def insert_by_count {α : Type} (x : α × ℕ) : List (α × ℕ) → List (α × ℕ)
  | [] => [x]
  | y :: ys => if y.2 ≤ x.2 then x :: y :: ys else y :: insert_by_count x ys

/-- Insertion sort by descending count, modelling the sort performed by
`pandas.Series.value_counts`. -/
def sort_by_count_desc {α : Type} : List (α × ℕ) → List (α × ℕ)
  | [] => []
  | x :: xs => insert_by_count x (sort_by_count_desc xs)

/-- Embedding of `df_site['class'].value_counts()`: occurrence counts of
each distinct value, sorted by descending count. -/
def value_counts (vals : List ℤ) : List (ℤ × ℕ) :=
  sort_by_count_desc (dedup_counts vals)

/-- Embedding of `.map({1: 'Success (1)', 0: 'Failure (0)'})` on the
outcome values; any other value is mapped to a missing label (NaN). -/
def outcome_label (v : ℤ) : Option String :=
  if v = 1 then some "Success (1)"
  else if v = 0 then some "Failure (0)"
  else none

/-- Embedding of the callback `get_pie_chart(entered_site)` of
`spacex-dash-app.py` (lines 86-110), with the table passed explicitly.
The ALL branch filters `spacex_df` to `class == 1` rows and pies on the
site column (`px.pie` with only `names=` counts one slice per distinct
name); the site branch filters to the selected site, value-counts the
outcome column and relabels the outcomes. -/
def get_pie_chart (spacex_df : List Row) (entered_site : String) : PieFig :=
  if entered_site = "ALL" then
    let df_success := spacex_df.filter fun r => r.cls == 1
    { title := "Total Successful Launches by Site"
      slices := (dedup_counts (df_success.map Row.site)).map fun sc => (some sc.1, sc.2) }
  else
    let df_site := spacex_df.filter fun r => r.site == entered_site
    let outcome_counts := value_counts (df_site.map Row.cls)
    { title := "Launch Outcomes for " ++ entered_site
      slices := outcome_counts.map fun vc => (outcome_label vc.1, vc.2) }

/-- Embedding of the boolean mask
`(spacex_df[payload_col] >= low) & (spacex_df[payload_col] <= high)`:
a missing payload (NaN) fails both comparisons, so the mask is false. -/
def payload_in_range (low high : ℚ) (r : Row) : Bool :=
  match r.payload with
  | some p => decide (low ≤ p) && decide (p ≤ high)
  | none => false

/-- Embedding of the callback `update_scatter(selected_site, payload_range)`
of `spacex-dash-app.py` (lines 122-144): filter by the payload range, then,
when a specific site is selected, by site equality. -/
def update_scatter (spacex_df : List Row) (selected_site : String)
    (payload_range : ℚ × ℚ) : ScatterFig :=
  let dff := spacex_df.filter (payload_in_range payload_range.1 payload_range.2)
  let dff2 := if selected_site = "ALL" then dff
    else dff.filter fun r => r.site == selected_site
  let title_suffix := if selected_site = "ALL" then "All Sites" else selected_site
  { title := "Payload vs. Launch Outcome (0/1) — " ++ title_suffix
    rows := dff2 }

/-- Values present in the payload column (pandas skips NaN cells when
reducing with `min`/`max`). -/
def payloads (t : List Row) : List ℚ :=
  t.filterMap Row.payload

/-- Embedding of `min_payload = spacex_df[payload_col].min()`; `none`
when no payload value is present. -/
def min_payload (t : List Row) : Option ℚ :=
  (payloads t).min?

/-- Embedding of `max_payload = spacex_df[payload_col].max()`. -/
def max_payload (t : List Row) : Option ℚ :=
  (payloads t).max?

/-- Embedding of the resolution
`site_col = 'Launch Site' if 'Launch Site' in spacex_df.columns else 'LaunchSite'`
(line 12), a function of the CSV column names. -/
def site_col (columns : List String) : String :=
  if "Launch Site" ∈ columns then "Launch Site" else "LaunchSite"

/-- Embedding of the three-way payload-column resolution (lines 13-17). -/
def payload_col (columns : List String) : Option String :=
  if "Payload Mass (kg)" ∈ columns then some "Payload Mass (kg)"
  else if "PayloadMass" ∈ columns then some "PayloadMass"
  else if "PayloadMassKg" ∈ columns then some "PayloadMassKg"
  else none

/-- Embedding of the booster-column resolution (line 18). -/
def booster_col (columns : List String) : String :=
  if "Booster Version Category" ∈ columns then "Booster Version Category"
  else "BoosterVersionCategory"

/-- The three resolved physical column names used by every query. -/
structure ResolvedColumns where
  site_col : String
  payload_col : String
  booster_col : String
  deriving DecidableEq

/-- Embedding of the startup column resolution (lines 12-24): the site
and booster columns always resolve; if no payload alias is present the
load raises `ValueError` before the app is built, with a message naming
the available columns — embedded as `Except.error` carrying the column
list.  Success yields the resolved names used by all later queries. -/
def load_columns (columns : List String) : Except (List String) ResolvedColumns :=
  match payload_col columns with
  | some pc => Except.ok ⟨site_col columns, pc, booster_col columns⟩
  | none => Except.error columns

/-- Truncation toward zero, the behaviour of `int()` in Python on a
finite float. -/
def pyInt (q : ℚ) : ℤ :=
  if q < 0 then ⌈q⌉ else ⌊q⌋

/-- Embedding of the `marks` dict literal of the range slider (lines
65-69) as a key-lookup function; a later duplicate key overwrites an
earlier one, as in a Python dict literal. -/
def slider_marks (mn mx : ℚ) (k : ℤ) : Option String :=
  if k = pyInt mx then some (toString (pyInt mx))
  else if k = pyInt ((mn + mx) / 2) then some (toString (pyInt ((mn + mx) / 2)))
  else if k = pyInt mn then some (toString (pyInt mn))
  else none

/-- Configuration of the `dcc.RangeSlider` (lines 59-71). -/
structure RangeSlider where
  min : ℚ
  max : ℚ
  step : ℚ
  value : ℚ × ℚ
  marks : ℤ → Option String

/-- Embedding of the `dcc.RangeSlider(...)` construction (lines 59-71)
from the loader-computed payload bounds. -/
def payload_slider (mn mx : ℚ) : RangeSlider :=
  { min := mn
    max := mx
    step := 1000
    value := (mn, mx)
    marks := slider_marks mn mx }

/-- Process-wide state: the table loaded once at startup.  The callbacks
never write to it, which the step functions below make explicit. -/
structure AppState where
  spacex_df : List Row
  deriving DecidableEq

/-- One reactive invocation of the pie callback, as a state transformer:
it returns the (unchanged) state together with the produced figure. -/
def pie_step (st : AppState) (entered_site : String) : AppState × PieFig :=
  (st, get_pie_chart st.spacex_df entered_site)

/-- One reactive invocation of the scatter callback, as a state
transformer. -/
def scatter_step (st : AppState) (selected_site : String)
    (payload_range : ℚ × ℚ) : AppState × ScatterFig :=
  (st, update_scatter st.spacex_df selected_site payload_range)

/-! ## Sample data used to instantiate the theorems -/

/-- Sample launch record: a success at CCAFS LC-40 with payload 2000 kg. -/
def row1 : Row := ⟨"CCAFS LC-40", some 2000, 1, "FT"⟩

/-- Sample launch record: a failure at CCAFS LC-40 with payload 3000 kg. -/
def row2 : Row := ⟨"CCAFS LC-40", some 3000, 0, "v1.1"⟩

/-- Sample launch record: a success at KSC LC-39A with payload 6000 kg. -/
def row3 : Row := ⟨"KSC LC-39A", some 6000, 1, "FT"⟩

/-- Sample table with all payload cells present. -/
def sample_df : List Row := [row1, row2, row3]

/-- Sample launch record whose payload cell is missing (NaN). -/
def gap_row : Row := ⟨"CCAFS LC-40", none, 0, "v1.0"⟩

/-- Sample table containing a row with a missing payload cell. -/
def gap_df : List Row := [row1, gap_row]

/-! ## Helper lemmas -/

lemma insert_by_count_perm {α : Type} (x : α × ℕ) (l : List (α × ℕ)) :
    (insert_by_count x l).Perm (x :: l) := by
  induction l with
  | nil => exact List.Perm.refl _
  | cons y ys ih =>
    rw [insert_by_count]
    by_cases h : y.2 ≤ x.2
    · rw [if_pos h]
    · rw [if_neg h]
      exact (ih.cons y).trans (List.Perm.swap x y ys)

lemma sort_by_count_desc_perm {α : Type} (l : List (α × ℕ)) :
    (sort_by_count_desc l).Perm l := by
  induction l with
  | nil => exact List.Perm.refl _
  | cons x xs ih =>
    rw [sort_by_count_desc]
    exact (insert_by_count_perm x (sort_by_count_desc xs)).trans (ih.cons x)

lemma mem_dedup_counts {α : Type} [DecidableEq α] {l : List α} {x : α} {c : ℕ} :
    (x, c) ∈ dedup_counts l ↔ x ∈ l ∧ c = l.count x := by
  rw [dedup_counts, List.mem_map]
  constructor
  · rintro ⟨v, hv, heq⟩
    rw [Prod.mk.injEq] at heq
    rw [← heq.1, ← heq.2]
    exact ⟨List.mem_dedup.mp hv, rfl⟩
  · rintro ⟨hx, hc⟩
    exact ⟨x, List.mem_dedup.mpr hx, by rw [hc]⟩

lemma mem_value_counts {vals : List ℤ} {v : ℤ} {c : ℕ} :
    (v, c) ∈ value_counts vals ↔ v ∈ vals ∧ c = vals.count v := by
  rw [value_counts, (sort_by_count_desc_perm _).mem_iff, mem_dedup_counts]

lemma value_counts_sum (vals : List ℤ) :
    ((value_counts vals).map Prod.snd).sum = vals.length := by
  rw [value_counts, ((sort_by_count_desc_perm (dedup_counts vals)).map Prod.snd).sum_eq]
  rw [dedup_counts, List.map_map]
  exact List.sum_map_count_dedup_eq_length vals

lemma count_map_site_filter (t : List Row) (p : Row → Bool) (s : String) :
    ((t.filter p).map Row.site).count s = t.countP fun r => r.site == s && p r := by
  rw [List.count, List.countP_map, List.countP_filter]
  rfl

/-! ## Claims -/

/-- C1: with the sentinel site "ALL", `get_pie_chart` restricts the table
to rows with outcome flag 1 and produces, for every site appearing among
those rows, exactly the slice labelled with that site whose size is the
number of rows with that site and outcome 1, under the title
"Total Successful Launches by Site". -/
theorem pie_all_counts_successes_per_site (t : List Row) :
    (get_pie_chart t "ALL").title = "Total Successful Launches by Site" ∧
    ∀ (s : String) (c : ℕ),
      (some s, c) ∈ (get_pie_chart t "ALL").slices ↔
        ((∃ r ∈ t, r.site = s ∧ r.cls = 1) ∧
          c = t.countP fun r => r.site == s && r.cls == 1) := by
  rw [get_pie_chart, if_pos rfl]
  refine ⟨rfl, fun s c => ?_⟩
  simp only [List.mem_map]
  constructor
  · rintro ⟨⟨v, k⟩, hvk, heq⟩
    rw [Prod.mk.injEq, Option.some.injEq] at heq
    obtain ⟨rfl, rfl⟩ := heq
    rw [mem_dedup_counts] at hvk
    obtain ⟨hv, hk⟩ := hvk
    rw [List.mem_map] at hv
    obtain ⟨r, hr, hrs⟩ := hv
    rw [List.mem_filter, beq_iff_eq] at hr
    refine ⟨⟨r, hr.1, hrs, hr.2⟩, ?_⟩
    rw [hk, count_map_site_filter]
  · rintro ⟨⟨r, hr, hrs, hr1⟩, hc⟩
    refine ⟨(s, c), ?_, rfl⟩
    rw [mem_dedup_counts]
    constructor
    · rw [List.mem_map]
      exact ⟨r, List.mem_filter.mpr ⟨hr, beq_iff_eq.mpr hr1⟩, hrs⟩
    · rw [hc, count_map_site_filter]

lemma payload_in_range_iff {low high : ℚ} {r : Row} :
    payload_in_range low high r = true ↔
      ∃ p, r.payload = some p ∧ low ≤ p ∧ p ≤ high := by
  cases hp : r.payload with
  | none => simp [payload_in_range, hp]
  | some p => simp [payload_in_range, hp]

lemma mem_update_scatter {t : List Row} {s : String} {low high : ℚ} {r : Row} :
    r ∈ (update_scatter t s (low, high)).rows ↔
      r ∈ t ∧ (∃ p, r.payload = some p ∧ low ≤ p ∧ p ≤ high) ∧
        (s ≠ "ALL" → r.site = s) := by
  by_cases hs : s = "ALL"
  · subst hs
    have hrows : (update_scatter t "ALL" (low, high)).rows
        = t.filter (payload_in_range low high) := by
      simp [update_scatter]
    rw [hrows, List.mem_filter, payload_in_range_iff]
    simp
  · have hrows : (update_scatter t s (low, high)).rows
        = (t.filter (payload_in_range low high)).filter fun r => r.site == s := by
      simp [update_scatter, hs]
    rw [hrows, List.mem_filter, List.mem_filter, payload_in_range_iff, beq_iff_eq]
    constructor
    · rintro ⟨⟨hrt, hrange⟩, hsite⟩
      exact ⟨hrt, hrange, fun _ => hsite⟩
    · rintro ⟨hrt, hrange, hsite⟩
      exact ⟨⟨hrt, hrange⟩, hsite hs⟩

lemma update_scatter_rows_sublist (t : List Row) (s : String) (rng : ℚ × ℚ) :
    (update_scatter t s rng).rows.Sublist t := by
  by_cases hs : s = "ALL"
  · subst hs
    have hrows : (update_scatter t "ALL" rng).rows
        = t.filter (payload_in_range rng.1 rng.2) := by
      simp [update_scatter]
    rw [hrows]
    exact List.filter_sublist t
  · have hrows : (update_scatter t s rng).rows
        = (t.filter (payload_in_range rng.1 rng.2)).filter fun r => r.site == s := by
      simp [update_scatter, hs]
    rw [hrows]
    exact (List.filter_sublist _).trans (List.filter_sublist t)

lemma count_map_cls_filter (t : List Row) (p : Row → Bool) (v : ℤ) :
    ((t.filter p).map Row.cls).count v = t.countP fun r => r.cls == v && p r := by
  rw [List.count, List.countP_map, List.countP_filter]
  rfl

/-- C3: for every table, site and inclusive range with `low ≤ high`, the
scatter filter returns exactly the rows (a sublist of the table) whose
payload value lies in `[low, high]`, further restricted to the selected
site whenever the site is not "ALL". -/
theorem scatter_returns_exactly_range_and_site_rows (t : List Row) (s : String)
    (low high : ℚ) (hlh : low ≤ high) :
    ((update_scatter t s (low, high)).rows.Sublist t) ∧
    ∀ r, r ∈ (update_scatter t s (low, high)).rows ↔
      (r ∈ t ∧ (∃ p, r.payload = some p ∧ low ≤ p ∧ p ≤ high) ∧
        (s ≠ "ALL" → r.site = s)) :=
  ⟨update_scatter_rows_sublist t s (low, high), fun _ => mem_update_scatter⟩

/-- Witness for C3 at a concrete table, site and range. -/
theorem scatter_returns_exactly_range_and_site_rows_witness :
    (update_scatter sample_df "CCAFS LC-40" (1500, 2500)).rows = [row1] ∧
    row1 ∈ (update_scatter sample_df "CCAFS LC-40" (1500, 2500)).rows := by
  have h := scatter_returns_exactly_range_and_site_rows sample_df "CCAFS LC-40"
    1500 2500 (by decide)
  exact ⟨by decide, (h.2 row1).mpr ⟨by decide, ⟨2000, rfl, by decide, by decide⟩,
    fun _ => rfl⟩⟩

/-- C10: a row whose payload cell is missing is excluded from every
scatter result, whatever the range and site, because the range mask is
false on a missing value. -/
theorem scatter_never_returns_missing_payload (t : List Row) (s : String)
    (low high : ℚ) (r : Row) (hr : r.payload = none) :
    r ∉ (update_scatter t s (low, high)).rows := by
  rw [mem_update_scatter]
  rintro ⟨-, ⟨p, hp, -, -⟩, -⟩
  rw [hr] at hp
  exact Option.noConfusion hp

/-- Witness for C10 at a concrete table and row with missing payload. -/
theorem scatter_never_returns_missing_payload_witness :
    gap_row ∉ (update_scatter gap_df "ALL" (2000, 2000)).rows :=
  scatter_never_returns_missing_payload gap_df "ALL" 2000 2000 gap_row rfl

/-- C2: for a specific site and a table whose outcome flags are all 0 or
1, `get_pie_chart` produces the success/failure bucket counts of that
site: every slice is one of the two mapped labels with the matching
count, the slice sizes sum to the site's row count, and the title is
"Launch Outcomes for {site}". -/
theorem pie_site_success_failure_buckets (t : List Row) (site : String)
    (hsite : site ≠ "ALL") (hcls : ∀ r ∈ t, r.cls = 0 ∨ r.cls = 1) :
    (get_pie_chart t site).title = "Launch Outcomes for " ++ site ∧
    ((get_pie_chart t site).slices.map Prod.snd).sum
      = (t.filter fun r => r.site == site).length ∧
    ∀ lab c, (lab, c) ∈ (get_pie_chart t site).slices →
      (lab = some "Success (1)" ∧ c = t.countP fun r => r.cls == 1 && r.site == site) ∨
      (lab = some "Failure (0)" ∧ c = t.countP fun r => r.cls == 0 && r.site == site) := by
  have hfig : get_pie_chart t site =
      { title := "Launch Outcomes for " ++ site
        slices := (value_counts ((t.filter fun r => r.site == site).map Row.cls)).map
          fun vc => (outcome_label vc.1, vc.2) } := by
    rw [get_pie_chart, if_neg hsite]
  have htitle : (get_pie_chart t site).title = "Launch Outcomes for " ++ site := by
    rw [hfig]
  have hslices : (get_pie_chart t site).slices
      = (value_counts ((t.filter fun r => r.site == site).map Row.cls)).map
          fun vc => (outcome_label vc.1, vc.2) := by
    rw [hfig]
  refine ⟨htitle, ?_, ?_⟩
  · rw [hslices, List.map_map]
    have hcomp : (Prod.snd ∘ fun vc : ℤ × ℕ => (outcome_label vc.1, vc.2))
        = Prod.snd := rfl
    rw [hcomp, value_counts_sum, List.length_map]
  · intro lab c hmem
    rw [hslices, List.mem_map] at hmem
    obtain ⟨⟨v, k⟩, hvk, heq⟩ := hmem
    rw [Prod.mk.injEq] at heq
    obtain ⟨hlab, hk⟩ := heq
    rw [mem_value_counts] at hvk
    obtain ⟨hv, hkc⟩ := hvk
    rw [List.mem_map] at hv
    obtain ⟨r, hr, hrv⟩ := hv
    rw [List.mem_filter] at hr
    have h01 := hcls r hr.1
    rw [hrv] at h01
    rcases h01 with h0 | h1
    · right
      subst h0
      refine ⟨by rw [← hlab]; rfl, ?_⟩
      rw [← hk, hkc, count_map_cls_filter]
    · left
      subst h1
      refine ⟨by rw [← hlab]; rfl, ?_⟩
      rw [← hk, hkc, count_map_cls_filter]

/-- Witness for C2 at a concrete table and site. -/
theorem pie_site_success_failure_buckets_witness :
    (get_pie_chart sample_df "CCAFS LC-40").title = "Launch Outcomes for CCAFS LC-40" ∧
    ((get_pie_chart sample_df "CCAFS LC-40").slices.map Prod.snd).sum = 2 := by
  have h := pie_site_success_failure_buckets sample_df "CCAFS LC-40"
    (by decide) (by decide)
  refine ⟨by rw [h.1]; decide, ?_⟩
  rw [h.2.1]
  decide

/-- C6: a selected site absent from the dataset yields a pie chart with
no slices, and a payload range matching no row yields a scatter chart
with no points; both callbacks are total and return empty results
instead of raising. -/
theorem unknown_site_and_empty_range_yield_empty_charts (t : List Row)
    (s s2 : String) (low high : ℚ) (hs : s ≠ "ALL")
    (hunknown : ∀ r ∈ t, r.site ≠ s)
    (hmask : ∀ r ∈ t, payload_in_range low high r = false) :
    (get_pie_chart t s).slices = [] ∧
    (update_scatter t s2 (low, high)).rows = [] := by
  constructor
  · have hfilter : (t.filter fun r => r.site == s) = [] := by
      rw [List.filter_eq_nil_iff]
      intro r hr
      rw [beq_iff_eq]
      exact hunknown r hr
    have hslices : (get_pie_chart t s).slices
        = (value_counts ((t.filter fun r => r.site == s).map Row.cls)).map
            fun vc => (outcome_label vc.1, vc.2) := by
      rw [get_pie_chart, if_neg hs]
    rw [hslices, hfilter]
    rfl
  · have hdff : t.filter (payload_in_range low high) = [] := by
      rw [List.filter_eq_nil_iff]
      intro r hr
      rw [hmask r hr]
      exact Bool.false_ne_true
    by_cases hs2 : s2 = "ALL"
    · subst hs2
      have hrows : (update_scatter t "ALL" (low, high)).rows
          = t.filter (payload_in_range low high) := by
        simp [update_scatter]
      rw [hrows, hdff]
    · have hrows : (update_scatter t s2 (low, high)).rows
          = (t.filter (payload_in_range low high)).filter fun r => r.site == s2 := by
        simp [update_scatter, hs2]
      rw [hrows, hdff]
      rfl

/-- Witness for C6 at a concrete table, unknown site and empty range. -/
theorem unknown_site_and_empty_range_yield_empty_charts_witness :
    (get_pie_chart sample_df "VAFB SLC-4E").slices = [] ∧
    (update_scatter sample_df "ALL" (100, 200)).rows = [] :=
  unknown_site_and_empty_range_yield_empty_charts sample_df "VAFB SLC-4E" "ALL"
    100 200 (by decide) (by decide) (by decide)

lemma mem_payloads {t : List Row} {p : ℚ} :
    p ∈ payloads t ↔ ∃ r ∈ t, r.payload = some p := by
  rw [payloads, List.mem_filterMap]

lemma min_payload_spec {t : List Row} {mn : ℚ} (h : min_payload t = some mn) :
    mn ∈ payloads t ∧ ∀ p ∈ payloads t, mn ≤ p := by
  haveI : Std.Antisymm ((· : ℚ) ≤ ·) := ⟨fun h1 h2 => le_antisymm h1 h2⟩
  rw [min_payload, List.min?_eq_some_iff (fun a => le_refl a)
    (fun a b => min_choice a b) (fun a b c => le_min_iff)] at h
  exact h

lemma max_payload_spec {t : List Row} {mx : ℚ} (h : max_payload t = some mx) :
    mx ∈ payloads t ∧ ∀ p ∈ payloads t, p ≤ mx := by
  haveI : Std.Antisymm ((· : ℚ) ≤ ·) := ⟨fun h1 h2 => le_antisymm h1 h2⟩
  rw [max_payload, List.max?_eq_some_iff (fun a => le_refl a)
    (fun a b => max_choice a b) (fun a b c => max_le_iff)] at h
  exact h

/-- C4 counterexample: on a loaded table containing a row with a missing
payload cell, the scatter filter under the loader-computed full bounds
and site "ALL" does not return every row: the row with the missing
payload is dropped.  This refutes the claim as stated, which quantifies
over every loaded table. -/
theorem scatter_full_range_not_identity_on_missing_payload :
    min_payload gap_df = some 2000 ∧ max_payload gap_df = some 2000 ∧
    (update_scatter gap_df "ALL" (2000, 2000)).rows ≠ gap_df := by
  refine ⟨by decide, by decide, ?_⟩
  decide

/-- C4 (amended): on every loaded table in which every payload cell is
present, the scatter filter with the loader-computed range
`[min_payload, max_payload]` and site "ALL" returns every row
unchanged. -/
theorem scatter_full_range_identity_when_no_missing (t : List Row) (mn mx : ℚ)
    (hall : ∀ r ∈ t, (r.payload).isSome)
    (hmn : min_payload t = some mn) (hmx : max_payload t = some mx) :
    (update_scatter t "ALL" (mn, mx)).rows = t := by
  have hrows : (update_scatter t "ALL" (mn, mx)).rows
      = t.filter (payload_in_range mn mx) := by
    simp [update_scatter]
  rw [hrows, List.filter_eq_self]
  intro r hr
  obtain ⟨p, hp⟩ := Option.isSome_iff_exists.mp (hall r hr)
  have hpmem : p ∈ payloads t := mem_payloads.mpr ⟨r, hr, hp⟩
  rw [payload_in_range_iff]
  exact ⟨p, hp, (min_payload_spec hmn).2 p hpmem, (max_payload_spec hmx).2 p hpmem⟩

/-- Witness for the amended C4 at a concrete table with no missing
payload cells. -/
theorem scatter_full_range_identity_when_no_missing_witness :
    (update_scatter sample_df "ALL" (2000, 6000)).rows = sample_df :=
  scatter_full_range_identity_when_no_missing sample_df 2000 6000
    (by decide) (by decide) (by decide)

/-- C5: the loader tries the payload aliases in order "Payload Mass (kg)",
"PayloadMass", "PayloadMassKg" and selects the first one present; when
none is present the load fails with a configuration error carrying the
available column names (the process never builds the app); in particular
a table offering only "PayloadMassKg" resolves to it and loads. -/
theorem payload_column_resolution_order (columns : List String) :
    ("Payload Mass (kg)" ∈ columns →
      payload_col columns = some "Payload Mass (kg)") ∧
    ("Payload Mass (kg)" ∉ columns → "PayloadMass" ∈ columns →
      payload_col columns = some "PayloadMass") ∧
    ("Payload Mass (kg)" ∉ columns → "PayloadMass" ∉ columns →
      "PayloadMassKg" ∈ columns →
      payload_col columns = some "PayloadMassKg") ∧
    ("Payload Mass (kg)" ∉ columns → "PayloadMass" ∉ columns →
      "PayloadMassKg" ∉ columns →
      load_columns columns = Except.error columns) ∧
    ("Payload Mass (kg)" ∉ columns → "PayloadMass" ∉ columns →
      "PayloadMassKg" ∈ columns →
      load_columns columns
        = Except.ok ⟨site_col columns, "PayloadMassKg", booster_col columns⟩) := by
  refine ⟨fun h1 => ?_, fun h1 h2 => ?_, fun h1 h2 h3 => ?_,
    fun h1 h2 h3 => ?_, fun h1 h2 h3 => ?_⟩
  · rw [payload_col, if_pos h1]
  · rw [payload_col, if_neg h1, if_pos h2]
  · rw [payload_col, if_neg h1, if_neg h2, if_pos h3]
  · have hp : payload_col columns = none := by
      rw [payload_col, if_neg h1, if_neg h2, if_neg h3]
    rw [load_columns, hp]
  · have hp : payload_col columns = some "PayloadMassKg" := by
      rw [payload_col, if_neg h1, if_neg h2, if_pos h3]
    rw [load_columns, hp]

/-- Witness for C5: a concrete header offering only "PayloadMassKg"
resolves to it and loads successfully. -/
theorem payload_column_resolution_order_witness :
    load_columns ["Flight Number", "PayloadMassKg", "class"]
      = Except.ok ⟨"LaunchSite", "PayloadMassKg", "BoosterVersionCategory"⟩ := by
  have h := (payload_column_resolution_order
    ["Flight Number", "PayloadMassKg", "class"]).2.2.2.2
    (by decide) (by decide) (by decide)
  rw [h]
  rfl

/-- C9: site and booster column resolution never fails: if the preferred
name is absent the fallback name is adopted without checking that it
exists; loading succeeds whenever the payload column resolves, so a
table missing both site aliases still loads and its resolved site column
is a name that is not among the table columns. -/
theorem site_and_booster_fallback_unchecked (columns : List String) :
    ("Launch Site" ∉ columns → site_col columns = "LaunchSite") ∧
    ("Booster Version Category" ∉ columns →
      booster_col columns = "BoosterVersionCategory") ∧
    (∀ pc, payload_col columns = some pc →
      load_columns columns
        = Except.ok ⟨site_col columns, pc, booster_col columns⟩) ∧
    ("Launch Site" ∉ columns → "LaunchSite" ∉ columns →
      site_col columns ∉ columns) := by
  refine ⟨fun h1 => ?_, fun h1 => ?_, fun pc hpc => ?_, fun h1 h2 => ?_⟩
  · rw [site_col, if_neg h1]
  · rw [booster_col, if_neg h1]
  · rw [load_columns, hpc]
  · rw [site_col, if_neg h1]
    exact h2

/-- Witness for C9: a concrete header missing both site aliases and both
booster aliases still loads; the adopted fallback site column is not a
column of the table. -/
theorem site_and_booster_fallback_unchecked_witness :
    site_col ["PayloadMass", "class"] = "LaunchSite" ∧
    load_columns ["PayloadMass", "class"]
      = Except.ok ⟨"LaunchSite", "PayloadMass", "BoosterVersionCategory"⟩ ∧
    site_col ["PayloadMass", "class"] ∉ ["PayloadMass", "class"] := by
  have h := site_and_booster_fallback_unchecked ["PayloadMass", "class"]
  refine ⟨h.1 (by decide), ?_, h.2.2.2 (by decide) (by decide)⟩
  rw [h.2.2.1 "PayloadMass" (by rfl)]
  rfl

/-- Witness for C1 at a concrete table. -/
theorem pie_all_counts_successes_per_site_witness :
    (get_pie_chart sample_df "ALL").title = "Total Successful Launches by Site" ∧
    (some "CCAFS LC-40", 1) ∈ (get_pie_chart sample_df "ALL").slices := by
  have h := pie_all_counts_successes_per_site sample_df
  exact ⟨h.1, (h.2 "CCAFS LC-40" 1).mpr ⟨⟨row1, by decide, rfl, rfl⟩, by decide⟩⟩

lemma pyInt_mid_2000_6000 : pyInt (((2000 : ℚ) + 6000) / 2) = 4000 := by
  rw [pyInt, if_neg (by norm_num)]
  norm_num

/-- C7: the loader-computed payload bounds are the least and greatest
present payload values; they become the inclusive bounds and the initial
value of the range slider, with step 1000, and the marks are exactly the
integer truncations of the minimum, the midpoint and the maximum, each
rendered as that integer's decimal string. -/
theorem slider_uses_payload_bounds_and_marks (t : List Row) (mn mx : ℚ)
    (hmn : min_payload t = some mn) (hmx : max_payload t = some mx) :
    (mn ∈ payloads t ∧ ∀ p ∈ payloads t, mn ≤ p) ∧
    (mx ∈ payloads t ∧ ∀ p ∈ payloads t, p ≤ mx) ∧
    (payload_slider mn mx).min = mn ∧
    (payload_slider mn mx).max = mx ∧
    (payload_slider mn mx).step = 1000 ∧
    (payload_slider mn mx).value = (mn, mx) ∧
    ∀ k v, (payload_slider mn mx).marks k = some v ↔
      ((k = pyInt mn ∨ k = pyInt ((mn + mx) / 2) ∨ k = pyInt mx) ∧
        v = toString k) := by
  refine ⟨min_payload_spec hmn, max_payload_spec hmx, rfl, rfl, rfl, rfl, ?_⟩
  intro k v
  show slider_marks mn mx k = some v ↔ _
  rw [slider_marks]
  by_cases h3 : k = pyInt mx
  · subst h3
    rw [if_pos rfl]
    constructor
    · intro h
      injection h with h
      exact ⟨Or.inr (Or.inr rfl), h.symm⟩
    · rintro ⟨-, hv⟩
      rw [hv]
  · rw [if_neg h3]
    by_cases h2 : k = pyInt ((mn + mx) / 2)
    · subst h2
      rw [if_pos rfl]
      constructor
      · intro h
        injection h with h
        exact ⟨Or.inr (Or.inl rfl), h.symm⟩
      · rintro ⟨-, hv⟩
        rw [hv]
    · rw [if_neg h2]
      by_cases h1 : k = pyInt mn
      · subst h1
        rw [if_pos rfl]
        constructor
        · intro h
          injection h with h
          exact ⟨Or.inl rfl, h.symm⟩
        · rintro ⟨-, hv⟩
          rw [hv]
      · rw [if_neg h1]
        constructor
        · intro h
          exact Option.noConfusion h
        · rintro ⟨h, -⟩
          rcases h with h | h | h
          · exact absurd h h1
          · exact absurd h h2
          · exact absurd h h3

/-- Witness for C7 at a concrete table with payload bounds 2000 and 6000
and midpoint 4000. -/
theorem slider_uses_payload_bounds_and_marks_witness :
    (payload_slider 2000 6000).step = 1000 ∧
    (payload_slider 2000 6000).value = ((2000 : ℚ), (6000 : ℚ)) ∧
    (payload_slider 2000 6000).marks 4000 = some "4000" := by
  have h := slider_uses_payload_bounds_and_marks sample_df 2000 6000
    (by decide) (by decide)
  refine ⟨h.2.2.2.2.1, h.2.2.2.2.2.1, ?_⟩
  refine (h.2.2.2.2.2.2 4000 "4000").mpr
    ⟨Or.inr (Or.inl pyInt_mid_2000_6000.symm), ?_⟩
  decide

/-- C8: the pie and scatter callbacks are read-only: each invocation
returns the application state unchanged, and repeated invocations with
the same inputs read the same table and produce the same figure. -/
theorem callbacks_leave_table_unchanged (st : AppState) (s1 s2 : String)
    (rng rng2 : ℚ × ℚ) :
    (pie_step st s1).1 = st ∧
    (scatter_step st s2 rng).1 = st ∧
    (pie_step (scatter_step st s2 rng).1 s1).2 = (pie_step st s1).2 ∧
    (scatter_step (pie_step st s1).1 s2 rng2).2 = (scatter_step st s2 rng2).2 :=
  ⟨rfl, rfl, rfl, rfl⟩
